import Mathlib

/-!
Verification development for the volnux distributed task-execution server.

This file gives a shallow embedding of the parts of the code base that the
checked properties talk about (the wire codec in
`volnux/executors/message.py` and `volnux/executors/checksum.py`, the event
registry in `volnux/registry.py`, the client task registry and result store in
`volnux/manager/`, the adaptive scaling engine in
`volnux/scaling/adaptive/engine.py`, the queued-future machinery in
`volnux/scaling/adaptive/queue.py` and `wrapper.py`, and the manager core in
`volnux/manager/base.py` / `remote_manager.py`), together with theorems about
the embedded definitions.

Python values that can appear in the payload dictionaries are modelled by the
inductive type `PyVal`; dictionaries are association lists with unique keys.
External library primitives (json, zlib, hmac, base64) are modelled by
executable Lean functions that reproduce the behaviour the code depends on
(canonical sorted-key serialization, type errors on non-serializable values
and non-byte HMAC keys, header-checked decompression, deterministic digests).
-/

/-- A Python value as it can occur in the task/payload dictionaries:
`none`, booleans, integers, strings, byte strings, opaque callables
(tagged), lists and string-keyed dictionaries. -/
inductive PyVal where
  | pynone : PyVal
  | pybool : Bool → PyVal
  | pyint : Int → PyVal
  | pystr : String → PyVal
  | pybytes : List Nat → PyVal
  | pyfun : Nat → PyVal
  | pylist : List PyVal → PyVal
  | pydict : List (String × PyVal) → PyVal

/-- Entries of a Python dict, in insertion order. -/
abbrev PyDict := List (String × PyVal)

/-- `d.get(k)`: first binding of `k`, if any. -/
def dictGet (d : PyDict) (k : String) : Option PyVal :=
  match d.find? (fun e => e.1 = k) with
  | some e => some e.2
  | none => none

/-- `k in d`. -/
def dictHas (d : PyDict) (k : String) : Bool :=
  (dictGet d k).isSome

/-- `d.pop(k, None)` without the returned value: the dict with every binding
of `k` removed (a Python dict holds at most one). -/
def dictPop (d : PyDict) (k : String) : PyDict :=
  d.filter (fun e => e.1 ≠ k)

/-- `d[k] = v`.  A Python dict keeps at most one binding per key; since every
observation made of dicts in this development (lookup, membership,
sorted-key serialization) is insensitive to entry order on unique-keyed
dicts, the binding is placed at the end. -/
def dictSet (d : PyDict) (k : String) (v : PyVal) : PyDict :=
  (d.filter (fun e => e.1 ≠ k)) ++ [(k, v)]

/-- Insertion step of the key sort performed by
`json.dumps(..., sort_keys=True)`. -/
def insertSorted {α : Type} (e : String × α) : List (String × α) → List (String × α)
  | [] => [e]
  | f :: fs => if e.1 ≤ f.1 then e :: f :: fs else f :: insertSorted e fs

/-- Sort key-tagged items by key. -/
def sortEntries {α : Type} : List (String × α) → List (String × α)
  | [] => []
  | e :: es => insertSorted e (sortEntries es)

/-- JSON string escaping (quotes and backslashes; the payloads in this
development contain no control characters). -/
def jsonEscapeChar (c : Char) : String :=
  if c = '"' then "\\\"" else if c = '\\' then "\\\\" else String.singleton c

/-- A JSON string literal. -/
def jsonStr (s : String) : String :=
  "\"" ++ String.join (s.data.map jsonEscapeChar) ++ "\""

/-- Comma-space separated concatenation, matching `json.dumps`' default
`", "` item separator. -/
def joinComma : List String → String
  | [] => ""
  | [s] => s
  | s :: ss => s ++ ", " ++ joinComma ss

mutual
/-- Model of Python `json.dumps(value, sort_keys=True)`: canonical JSON with
keys sorted at every object level, `", "` and `": "` separators.  Returns
`TypeError` for values `json` cannot serialize (bytes, callables), exactly as
the library does. -/
def json_dumps : PyVal → Except String String
  | .pynone => .ok "null"
  | .pybool true => .ok "true"
  | .pybool false => .ok "false"
  | .pyint n => .ok (toString n)
  | .pystr s => .ok (jsonStr s)
  | .pybytes _ => .error "TypeError: Object of type bytes is not JSON serializable"
  | .pyfun _ => .error "TypeError: Object of type function is not JSON serializable"
  | .pylist xs => do
    let ss ← jsonDumpsList xs
    .ok ("[" ++ joinComma ss ++ "]")
  | .pydict es => do
    let ss ← jsonDumpsEntries es
    .ok ("\x7b" ++ joinComma ((sortEntries ss).map Prod.snd) ++ "\x7d")

/-- Serialize the elements of a JSON array in order. -/
def jsonDumpsList : List PyVal → Except String (List String)
  | [] => .ok []
  | x :: xs => do
    let s ← json_dumps x
    let ss ← jsonDumpsList xs
    .ok (s :: ss)

/-- Serialize dict entries as `"key": value` items, each tagged with its key
so that the caller can sort them into key order. -/
def jsonDumpsEntries : List (String × PyVal) → Except String (List (String × String))
  | [] => .ok []
  | (k, v) :: es => do
    let s ← json_dumps v
    let ss ← jsonDumpsEntries es
    .ok ((k, jsonStr k ++ ": " ++ s) :: ss)
end

/-- Byte encoding of a string (`str.encode("utf-8")`); the strings fed to the
codec in this development are ASCII, on which this coincides with UTF-8. -/
def strBytes (s : String) : List Nat :=
  s.data.map Char.toNat

/-- Model of the external HMAC-SHA256 primitive: a deterministic digest of
the key and message bytes.  The claims checked here depend only on the digest
being a function of `(key, message)` that separates the concrete payloads
appearing in the proofs, which is checked by evaluation. -/
def hmacSha256 (key msg : List Nat) : List Nat :=
  let mix : Nat → Nat → Nat := fun acc b => (acc * 131 + b + 17) % (2 ^ 64)
  let h := (key ++ [54] ++ msg).foldl mix 5381
  [h % 256, h / 256 % 256, h / 256 ^ 2 % 256, h / 256 ^ 3 % 256,
   h / 256 ^ 4 % 256, h / 256 ^ 5 % 256, h / 256 ^ 6 % 256, h / 256 ^ 7 % 256]

/-- Model of Python `hmac.new(key, msg, digestmod).digest()`: the key must be
a bytes object; passing a `str` key raises `TypeError`, as the library does. -/
def hmac_new (key : PyVal) (msg : List Nat) : Except String (List Nat) :=
  match key with
  | .pybytes k => .ok (hmacSha256 k msg)
  | .pystr _ => .error "TypeError: key: expected bytes or bytearray, but got str"
  | _ => .error "TypeError: key: expected bytes or bytearray"

/-- Alphabet used by the model of the external base64 codec. -/
def b64Alphabet : List Char :=
  ['A', 'B', 'C', 'D', 'E', 'F', 'G', 'H', 'I', 'J', 'K', 'L', 'M', 'N', 'O', 'P']

/-- Model of the external `base64.b64encode(..).decode()` primitive: an
injective byte-list-to-string encoding (two alphabet characters per byte).
The claims checked here depend only on injectivity and on `b64decode` being
its left inverse. -/
def b64encode : List Nat → String
  | [] => ""
  | b :: bs =>
    String.singleton (b64Alphabet.getD (b / 16 % 16) 'A') ++
      String.singleton (b64Alphabet.getD (b % 16) 'A') ++ b64encode bs

/-- Decode one character of the base64 model alphabet. -/
def b64CharVal (c : Char) : Option Nat :=
  (b64Alphabet.findIdx? (fun a => a = c)).bind fun i => some i

/-- Model of the external `base64.b64decode` primitive on strings: left
inverse of `b64encode`; fails on strings outside the encoding's range. -/
def b64decodeChars : List Char → Except String (List Nat)
  | [] => .ok []
  | [_] => .error "binascii.Error: Invalid base64-encoded string"
  | c :: c' :: cs => do
    let hi ← match b64CharVal c with
      | some v => Except.ok v
      | none => Except.error "binascii.Error: Invalid base64-encoded string"
    let lo ← match b64CharVal c' with
      | some v => Except.ok v
      | none => Except.error "binascii.Error: Invalid base64-encoded string"
    let rest ← b64decodeChars cs
    .ok ((hi * 16 + lo) :: rest)

/-- `base64.b64decode` applied to a Python value, as the verifiers do:
strings are decoded, bytes pass through, anything else is a `TypeError`. -/
def b64decode (v : PyVal) : Except String (List Nat) :=
  match v with
  | .pystr s => b64decodeChars s.data
  | .pybytes bs => .ok bs
  | _ => .error "TypeError: argument should be a bytes-like object or ASCII string"

/-- The zlib stream header bytes (`0x78 0x9c`). -/
def zlibHeader : List Nat := [120, 156]

/-- Model of the external `zlib.compress` primitive: prefixes the payload
with the zlib header.  The claims checked here depend only on
`zlib_decompress` inverting it and rejecting data that was never
compressed. -/
def zlib_compress (bs : List Nat) : List Nat :=
  zlibHeader ++ bs

/-- Model of the external `zlib.decompress` primitive: strips the header,
failing with `zlib.error` when the data does not start with it (in
particular on plain JSON text, whose first byte `0x7b` is not `0x78`). -/
def zlib_decompress (bs : List Nat) : Except String (List Nat) :=
  match bs with
  | 120 :: 156 :: rest => .ok rest
  | _ => .error "zlib.error: incorrect header check"

/-- Skip JSON whitespace. -/
def skipWs : List Char → List Char
  | [] => []
  | c :: cs => if c = ' ' ∨ c = '\n' ∨ c = '\t' ∨ c = '\r' then skipWs cs else c :: cs

/-- Parse the body of a JSON string literal (after the opening quote),
handling the escapes produced by the serializer. -/
def parseStrChars : List Char → Option (String × List Char)
  | [] => none
  | '"' :: r => some ("", r)
  | '\\' :: c :: r => do
    let (s, r2) ← parseStrChars r
    let u := if c = 'n' then "\n" else if c = 't' then "\t" else String.singleton c
    some (u ++ s, r2)
  | c :: r => do
    let (s, r2) ← parseStrChars r
    some (String.singleton c ++ s, r2)

/-- Split off a leading run of decimal digits. -/
def takeDigits : List Char → List Char × List Char
  | [] => ([], [])
  | c :: cs =>
    if c.isDigit then
      let (ds, rest) := takeDigits cs
      (c :: ds, rest)
    else ([], c :: cs)

/-- Numeric value of a digit run. -/
def digitsVal (ds : List Char) : Nat :=
  ds.foldl (fun acc c => acc * 10 + (c.toNat - 48)) 0

/-- Parse a JSON integer (the payloads in this development carry no
floats). -/
def parseNum (cs : List Char) : Option (PyVal × List Char) :=
  match cs with
  | '-' :: rest =>
    let (ds, r) := takeDigits rest
    if ds.isEmpty then none else some (.pyint (-(digitsVal ds : Int)), r)
  | _ =>
    let (ds, r) := takeDigits cs
    if ds.isEmpty then none else some (.pyint (digitsVal ds), r)

mutual
/-- Fuel-indexed recursive-descent parser modelling `json.loads`. -/
def parseVal : Nat → List Char → Option (PyVal × List Char)
  | 0, _ => none
  | Nat.succ fuel, cs =>
    match skipWs cs with
    | [] => none
    | 'n' :: 'u' :: 'l' :: 'l' :: r => some (.pynone, r)
    | 't' :: 'r' :: 'u' :: 'e' :: r => some (.pybool true, r)
    | 'f' :: 'a' :: 'l' :: 's' :: 'e' :: r => some (.pybool false, r)
    | '"' :: r => do
      let (s, r2) ← parseStrChars r
      some (.pystr s, r2)
    | '[' :: r => do
      let (xs, r2) ← parseArrItems fuel (skipWs r)
      some (.pylist xs, r2)
    | '\x7b' :: r => do
      let (es, r2) ← parseObjItems fuel (skipWs r)
      some (.pydict es, r2)
    | other => parseNum other

/-- Parse array items after `[` (whitespace already skipped). -/
def parseArrItems : Nat → List Char → Option (List PyVal × List Char)
  | 0, _ => none
  | Nat.succ fuel, cs =>
    match cs with
    | ']' :: r => some ([], r)
    | _ => do
      let (v, r) ← parseVal fuel cs
      match skipWs r with
      | ',' :: r2 => do
        let (vs, r3) ← parseArrItems fuel (skipWs r2)
        some (v :: vs, r3)
      | ']' :: r2 => some ([v], r2)
      | _ => none

/-- Parse object entries after the opening brace (whitespace already
skipped). -/
def parseObjItems : Nat → List Char → Option (List (String × PyVal) × List Char)
  | 0, _ => none
  | Nat.succ fuel, cs =>
    match cs with
    | '\x7d' :: r => some ([], r)
    | '"' :: r => do
      let (k, r2) ← parseStrChars r
      match skipWs r2 with
      | ':' :: r3 => do
        let (v, r4) ← parseVal fuel (skipWs r3)
        match skipWs r4 with
        | ',' :: r5 => do
          let (es, r6) ← parseObjItems fuel (skipWs r5)
          some ((k, v) :: es, r6)
        | '\x7d' :: r5 => some ([(k, v)], r5)
        | _ => none
      | _ => none
    | _ => none
end

/-- Model of Python `json.loads` on a byte payload. -/
def json_loads (bs : List Nat) : Except String PyVal :=
  let cs := bs.map Char.ofNat
  match parseVal (cs.length + 2) cs with
  | some (v, rest) =>
    if (skipWs rest).isEmpty then .ok v
    else .error "json.decoder.JSONDecodeError: Extra data"
  | none => .error "json.decoder.JSONDecodeError: Expecting value"

namespace Message

/-- `ALGORITHM` from `volnux/executors/message.py`. -/
def ALGORITHM : String := "sha256"

/-- `SECRET_KEY` from `volnux/executors/message.py`: a module-level `str`
(not bytes) literal. -/
def SECRET_KEY : PyVal := .pystr "j43fheiue3xvheilmew-xmwy34mcuea"

/-- The `TaskMessage` dataclass of `volnux/executors/message.py`:
`task_id`, `fn`, `args`, `kwargs`, `client_cert = None`,
`encrypted = False`. -/
structure TaskMessage where
  task_id : PyVal
  fn : PyVal
  args : PyVal
  kwargs : PyVal
  client_cert : PyVal := .pynone
  encrypted : PyVal := .pybool false

/-- `dataclasses.asdict` on a `TaskMessage`: its fields in declaration
order. -/
def asdict (m : TaskMessage) : PyDict :=
  [("task_id", m.task_id), ("fn", m.fn), ("args", m.args), ("kwargs", m.kwargs),
   ("client_cert", m.client_cert), ("encrypted", m.encrypted)]

/-- `TaskMessage.serialize_object`: dump the field dict as sorted-key JSON,
HMAC it with the module's `str` secret key, store the raw digest under
`_signature` and the algorithm name under `_algorithm`, dump again, and
return the UTF-8 bytes.  (The result is neither zlib-compressed nor is the
signature base64-encoded.) -/
def serialize_object (m : TaskMessage) : Except String (List Nat) := do
  let obj_dict := asdict m
  let obj_json ← json_dumps (.pydict obj_dict)
  let signature ← hmac_new SECRET_KEY (strBytes obj_json)
  let d1 := dictSet obj_dict "_signature" (.pybytes signature)
  let d2 := dictSet d1 "_algorithm" (.pystr ALGORITHM)
  let data ← json_dumps (.pydict d2)
  pure (strBytes data)

/-- The JSON string over which the inner verifier of
`TaskMessage.deserialize` recomputes the HMAC: the received mapping copied
with only `_signature` popped (`_algorithm` is left in place). -/
def verificationJson (d : PyDict) : Except String String :=
  json_dumps (.pydict (dictPop d "_signature"))

/-- The inner `verify_data` of `TaskMessage.deserialize`: requires
`_signature`, base64-decodes it, recomputes the HMAC over the mapping with
only `_signature` removed using the module's `str` secret key, and compares
digests. -/
def verify_data (d : PyDict) : Except String Unit := do
  if dictHas d "_signature" = false then
    throw "ValueError: signature not found in data"
  let received ← b64decode ((dictGet d "_signature").getD .pynone)
  let verification_json ← verificationJson d
  let expected ← hmac_new SECRET_KEY (strBytes verification_json)
  if received = expected then pure ()
  else throw "ValueError: received signature does not match expected signature"

/-- `TaskMessage(**d)`: keyword construction from a dict; fails on unknown
keys or missing required fields, applies the dataclass defaults. -/
def fromDict (d : PyDict) : Except String TaskMessage :=
  let allowed := ["task_id", "fn", "args", "kwargs", "client_cert", "encrypted"]
  if d.any (fun e => (allowed.contains e.1) = false) then
    .error "TypeError: unexpected keyword argument"
  else
    match dictGet d "task_id", dictGet d "fn", dictGet d "args", dictGet d "kwargs" with
    | some t, some f, some a, some k =>
      .ok { task_id := t, fn := f, args := a, kwargs := k,
            client_cert := (dictGet d "client_cert").getD .pynone,
            encrypted := (dictGet d "encrypted").getD (.pybool false) }
    | _, _, _, _ => .error "TypeError: missing required argument"

/-- `TaskMessage.deserialize`: zlib-decompress, parse JSON, run the inner
verifier, strip `_signature` and `_algorithm`, and rebuild a `TaskMessage`.
The parsed value must be a mapping (the source would fail on its `.copy()`
otherwise). -/
def deserialize (data : List Nat) : Except String (TaskMessage × Bool) := do
  let decompressed ← zlib_decompress data
  let v ← json_loads decompressed
  match v with
  | .pydict d => do
    verify_data d
    let d2 := dictPop (dictPop d "_signature") "_algorithm"
    let m ← fromDict d2
    pure (m, true)
  | _ => .error "AttributeError: object has no attribute copy"

/-- Encode with `serialize_object`, then decode with `deserialize`. -/
def roundTrip (m : TaskMessage) : Except String (TaskMessage × Bool) := do
  let bs ← serialize_object m
  deserialize bs

end Message

namespace Checksum

/-- `ALGORITHM` from `volnux/executors/checksum.py`. -/
def ALGORITHM : String := "sha256"

/-- `get_secret_key` from `volnux/executors/checksum.py`: the configured
secret (`CONF.SECRET_KEY`, passed here as a parameter) is encoded to bytes
when it is a `str` and returned unchanged otherwise. -/
def get_secret_key (confKey : PyVal) : PyVal :=
  match confKey with
  | .pystr s => .pybytes (strBytes s)
  | k => k

/-- Model of `hmac.compare_digest` on byte strings: digest equality (the
constant-time execution of the comparison is outside a functional
embedding). -/
def compare_digest (a b : List Nat) : Bool :=
  a = b

/-- `generate_signature`: base64 HMAC of the sorted-key JSON of the payload,
paired with the algorithm name. -/
def generate_signature (confKey : PyVal) (data : PyDict) :
    Except String (String × String) := do
  let j ← json_dumps (.pydict data)
  let sig ← hmac_new (get_secret_key confKey) (strBytes j)
  pure (b64encode sig, ALGORITHM)

/-- `verify_data` from `volnux/executors/checksum.py`: raises
`INVALID_CHECKSUM` when `_signature` is absent; returns `False` when the
stored signature is not base64-decodable; otherwise pops both `_signature`
and `_algorithm` from a copy, recomputes the HMAC over the sorted-key JSON
of the remainder, and compares digests. -/
def verify_data (confKey : PyVal) (data : PyDict) : Except String Bool := do
  if dictHas data "_signature" = false then
    throw "RemoteExecutionError: INVALID_CHECKSUM"
  match b64decode ((dictGet data "_signature").getD .pynone) with
  | .error _ => pure false
  | .ok received_bytes => do
    let verification_data := dictPop (dictPop data "_signature") "_algorithm"
    let verification_json ← json_dumps (.pydict verification_data)
    let expected ← hmac_new (get_secret_key confKey) (strBytes verification_json)
    pure (compare_digest received_bytes expected)

end Checksum

namespace EventRegistry

/-- A Python class object as the event registry sees it: its declaring
module (`__module__`), its class name (`__name__`), and an object identity
distinguishing distinct class objects. -/
structure PyClass where
  module : String
  name : String
  objId : Nat
deriving DecidableEq

/-- State of `volnux.registry.Registry`: `all_classes` (module label →
class-name → class, a defaultdict), `_name_registry` (name → class), and the
`ready` flag. -/
structure State where
  all_classes : List (String × List (String × PyClass))
  name_registry : List (String × PyClass)
  ready : Bool
deriving DecidableEq

/-- The empty registry produced by `Registry.__init__`. -/
def State.init : State :=
  { all_classes := [], name_registry := [], ready := false }

/-- Lookup in a string-keyed association list. -/
def alGet {α : Type} (d : List (String × α)) (k : String) : Option α :=
  match d.find? (fun e => e.1 = k) with
  | some e => some e.2
  | none => none

/-- Update a string-keyed association list (at most one binding per key). -/
def alSet {α : Type} (d : List (String × α)) (k : String) (v : α) :
    List (String × α) :=
  (d.filter (fun e => e.1 ≠ k)) ++ [(k, v)]

/-- Outcome of `Registry.register`: plain insertion, tolerated
re-registration with a `RuntimeWarning`, or the `RuntimeError` raised for a
conflicting registration. -/
inductive RegisterOutcome where
  | registered
  | warned
  | conflict
deriving DecidableEq

/-- `Registry.register(klass, name=None)` from `volnux/registry.py`.
Looks up `all_classes[klass.__module__]`; when `klass.__name__` is already
present there it warns if the stored class has the same `__name__` and
`__module__` and raises `RuntimeError` otherwise (leaving the state
unchanged, since the raise precedes every mutation); then stores the class
under `all_classes[module][name]` and under
`_name_registry[name if name is not None else klass.__name__]`, and marks
the registry ready. -/
def register (st : State) (klass : PyClass) (name : Option String) :
    RegisterOutcome × State :=
  let module_label := klass.module
  let klass_name := klass.name
  let module_classes := (alGet st.all_classes module_label).getD []
  let outcome : RegisterOutcome :=
    match alGet module_classes klass_name with
    | some existing =>
      if klass.name = existing.name ∧ klass.module = existing.module then
        .warned
      else
        .conflict
    | none => .registered
  if outcome = .conflict then
    (.conflict, st)
  else
    let module_classes := alSet module_classes klass_name klass
    let all_classes := alSet st.all_classes module_label module_classes
    let name_registry :=
      match name with
      | none => alSet st.name_registry klass_name klass
      | some n => alSet st.name_registry n klass
    (outcome, { all_classes := all_classes, name_registry := name_registry,
                ready := true })

/-- `Registry.get_by_name`. -/
def get_by_name (st : State) (klass_name : String) : Option PyClass :=
  alGet st.name_registry klass_name

end EventRegistry

namespace Scaling

/-- `ScalingConfig` from `volnux/scaling/adaptive/scaling_config.py`; the
Python floats are modelled by rationals. -/
structure ScalingConfig where
  max_cpu_quota : ℚ
  max_memory_quota : ℚ
  cpu_per_worker : ℚ
  memory_per_worker : ℚ
  parallelism_multiplier : ℤ
  scale_up_threshold : ℚ
  scale_down_timeout : ℚ
  min_workers : ℤ
  monitoring_interval : ℚ
  cpu_threshold_scale_down : ℚ
  cpu_threshold_scale_up : ℚ
  memory_threshold : ℚ
  aggressive_scaling : Bool

/-- Mutable state of `AdaptiveScalingEngine`, together with the system
monitor readings that `_check_resource_constraints` consumes
(`get_average_cpu_usage` in absolute cores, `get_total_memory_usage` in
GB). -/
structure EngineState where
  config : ScalingConfig
  max_workers : ℤ
  target_workers : ℤ
  task_queue_length : ℤ
  last_scale_action_time : ℚ
  last_scale_action : Option String
  cpu_usage_cores : ℚ
  memory_usage_gb : ℚ

/-- Result dict of `_check_resource_constraints`. -/
structure Resources where
  cpu_usage : ℚ
  cpu_limit : ℚ
  cpu_available : Bool
  cpu_underutilized : Bool
  memory_usage : ℚ
  memory_limit : ℚ
  memory_available : Bool

/-- `AdaptiveScalingEngine._check_resource_constraints`. -/
def check_resource_constraints (st : EngineState) : Resources :=
  { cpu_usage := st.cpu_usage_cores
    cpu_limit := st.config.max_cpu_quota
    cpu_available :=
      st.cpu_usage_cores < st.config.max_cpu_quota * st.config.cpu_threshold_scale_up
    cpu_underutilized :=
      st.cpu_usage_cores < st.config.max_cpu_quota * st.config.cpu_threshold_scale_down
    memory_usage := st.memory_usage_gb
    memory_limit := st.config.max_memory_quota
    memory_available :=
      st.memory_usage_gb < st.config.max_memory_quota * st.config.memory_threshold }

/-- `AdaptiveScalingEngine.should_scale_up`: always a `(decision, reason)`
pair.  (The numeric interpolations of the source's reason strings are
abbreviated; no checked property depends on them.) -/
def should_scale_up (st : EngineState) : Bool × String :=
  if st.target_workers ≥ st.max_workers then
    (false, "At max workers (W_max limit)")
  else
    let resources := check_resource_constraints st
    if resources.cpu_available = false then
      (false, "CPU Quota usage too high: " ++ toString resources.cpu_usage ++
        "/" ++ toString resources.cpu_limit ++ " cores")
    else if resources.memory_available = false then
      (false, "Memory Quota usage too high: " ++ toString resources.memory_usage ++
        "/" ++ toString resources.memory_limit ++ "GB")
    else
      let queue_threshold := (st.target_workers : ℚ) * st.config.scale_up_threshold
      if (st.task_queue_length : ℚ) ≥ queue_threshold then
        (true, "Queue pressure: " ++ toString st.task_queue_length ++ " tasks (>" ++
          toString queue_threshold ++ " threshold)")
      else
        (false, "No scale up needed")

/-- `AdaptiveScalingEngine.should_scale_down`; `now` is the value of
`time.time()` at the call. -/
def should_scale_down (st : EngineState) (now : ℚ) : Bool × String :=
  if st.target_workers ≤ st.config.min_workers then
    (false, "At minimum workers")
  else if st.task_queue_length > 0 then
    (false, "Queue has tasks: " ++ toString st.task_queue_length)
  else
    let resources := check_resource_constraints st
    if resources.cpu_underutilized ∧ st.task_queue_length = 0 then
      let time_since_last_scale := now - st.last_scale_action_time
      if time_since_last_scale ≥ st.config.scale_down_timeout then
        (true, "Low CPU usage: " ++ toString resources.cpu_usage ++ " cores for >" ++
          toString st.config.scale_down_timeout ++ "s")
      else
        (false, "No scale down needed")
    else
      (false, "No scale down needed")

/-- `AdaptiveScalingEngine.set_target_worker_count`: clamp the requested
count to `[min_workers, max_workers]`; when the clamped count differs from
the current target, adopt it, stamp `last_scale_action_time` with `now`
(`time.time()`), record the direction, and report `True`; otherwise report
`False` and change nothing. -/
def set_target_worker_count (st : EngineState) (now : ℚ) (count : ℤ) :
    Bool × EngineState :=
  let c := max st.config.min_workers (min count st.max_workers)
  if c ≠ st.target_workers then
    (true,
      { st with
          target_workers := c
          last_scale_action_time := now
          last_scale_action := some (if c > st.target_workers then "up" else "down") })
  else
    (false, st)

end Scaling

namespace Pool

/-- States of a `concurrent.futures.Future`. -/
inductive FutureState where
  | pending
  | running
  | cancelled
  | finished
deriving DecidableEq

/-- `Future.cancel` on a base future: pending futures become cancelled
(`True`), already-cancelled futures stay cancelled (`True`), running or
finished futures are unaffected (`False`). -/
def baseCancel (s : FutureState) : FutureState × Bool :=
  match s with
  | .pending => (.cancelled, true)
  | .cancelled => (.cancelled, true)
  | .running => (.running, false)
  | .finished => (.finished, false)

/-- A `QueuedFuture` from `volnux/scaling/adaptive/queue.py`: the wrapped
function (tagged), the proxy's own base-future state, and the index of its
real future once the submission loop has handed it to the pool. -/
structure QueuedFuture where
  fn : Nat
  st : FutureState
  realFuture : Option Nat

/-- `QueuedFuture(fn, args, kwargs)`: starts pending with no real future. -/
def QueuedFuture.mk0 (fn : Nat) : QueuedFuture :=
  { fn := fn, st := .pending, realFuture := none }

/-- The live `ProcessPoolExecutor` as the submission loop sees it: the
states of the real futures it has produced and, in order, the functions
handed to `executor.submit`. -/
structure PoolState where
  realFutures : List FutureState
  submittedFns : List Nat

/-- `QueuedFuture.cancel`: with no real future, fall back to the base
`Future.cancel`; once a real future exists, forward cancellation to it. -/
def QueuedFuture.cancel (qf : QueuedFuture) (pool : PoolState) :
    QueuedFuture × PoolState × Bool :=
  match qf.realFuture with
  | none =>
    let (s2, ok) := baseCancel qf.st
    ({ qf with st := s2 }, pool, ok)
  | some i =>
    let rs := pool.realFutures.getD i .pending
    let (rs2, ok) := baseCancel rs
    (qf, { pool with realFutures := pool.realFutures.set i rs2 }, ok)

/-- The per-future body of `DynamicProcessPoolExecutor._submission_loop`:
for a `QueuedFuture` dequeued from `_pending_tasks`, submit its function to
the live executor and attach the resulting real future
(`set_real_future`).  The loop performs no cancellation check. -/
def submissionStep (pool : PoolState) (qf : QueuedFuture) :
    QueuedFuture × PoolState :=
  let realIdx := pool.realFutures.length
  let pool2 := { realFutures := pool.realFutures ++ [.pending],
                 submittedFns := pool.submittedFns ++ [qf.fn] }
  ({ qf with realFuture := some realIdx }, pool2)

end Pool

namespace Manager

/-- Remove the first binding of `k`, returning it; the remaining list is the
original one when `k` is absent (`dict.pop(k, None)`). -/
def alPop {α : Type} (d : List (String × α)) (k : String) :
    Option α × List (String × α) :=
  match d with
  | [] => (none, [])
  | e :: rest =>
    if e.1 = k then (some e.2, rest)
    else
      let (r, rest2) := alPop rest k
      (r, e :: rest2)

/-- The result of invoking an event instance (`EventBase.__call__`): an
error flag and the content payload. -/
structure EventResult where
  error : Bool
  content : PyVal

/-- An instantiated event as the worker sees it: invoking it either returns
an `EventResult` or raises (modelled by `Except`). -/
structure EventInstance where
  invoke : Except String EventResult

/-- An executable event class as resolved from the event registry: its
constructor receives the minted `task_id` and the options bag built from the
message args, and may raise (`InvalidArgs` path). -/
structure EventClass where
  ctor : String → PyVal → Except String EventInstance

/-- Modelled from the spec: `ErrorCodes.PROCESSING_ERROR` (the class
`ErrorCodes` in `volnux/constants.py` is absent from the source tree; §7 of
the spec names the execution-failure code `EXECUTION_FAILED`). -/
def ErrorCodes.PROCESSING_ERROR : String := "EXECUTION_FAILED"

/-- Modelled from the spec: `create_error_response` from `volnux/utils.py`
(absent from the source tree); §7 gives the error payload shape
`status`/`code`/`message`, carrying the correlation id. -/
def create_error_response (code : String) (message : String)
    (correlation_id : String) : PyDict :=
  [("status", .pystr "error"), ("code", .pystr code),
   ("message", .pystr message), ("correlation_id", .pystr correlation_id)]

/-- `execute_task_wrapper` from `volnux/manager/base.py`: invoke the event
instance; on success build the status/result payload (`now` is the
`datetime.now()` string), on any raised exception return
`create_error_response` — the exception never propagates. -/
def execute_task_wrapper (event_instance : EventInstance)
    (correlation_id : String) (now : String) : PyDict :=
  match event_instance.invoke with
  | .ok event_result =>
    [("status", .pystr (if event_result.error then "error" else "success")),
     ("result", event_result.content),
     ("correlation_id", .pystr correlation_id),
     ("completed_at", .pystr now)]
  | .error e =>
    create_error_response ErrorCodes.PROCESSING_ERROR e correlation_id

/-- A `ClientTaskRegistry` record, as built by `BaseManager.handle_task`. -/
structure ClientTask where
  correlation_id : String
  status : String
  created_at : String
  start_time : ℚ
  client_id : PyVal
  event_name : String
  protocol : String
  client_context : Option Nat

/-- `ClientTaskRegistry.register`: replace the record when the correlation
id is already present (the source merges the old dict with the complete new
one, which the new record wins; it also warns), insert otherwise.  Returns
the new table and whether the duplicate warning fired. -/
def registryRegister (tasks : List (String × ClientTask)) (ct : ClientTask) :
    List (String × ClientTask) × Bool :=
  let existing := EventRegistry.alGet tasks ct.correlation_id
  (EventRegistry.alSet tasks ct.correlation_id ct, existing.isSome)

/-- `ClientTaskRegistry.get_task`. -/
def registryGetTask (tasks : List (String × ClientTask)) (id : String) :
    Option ClientTask :=
  EventRegistry.alGet tasks id

/-- `ClientTaskRegistry.remove`: delete the binding if present. -/
def registryRemove (tasks : List (String × ClientTask)) (id : String) :
    List (String × ClientTask) :=
  tasks.filter (fun e => e.1 ≠ id)

/-- A `ResultStore` entry: the parked result payload and its `time.time()`
timestamp. -/
structure StoredResult where
  data : PyDict
  timestamp : ℚ

/-- `ResultStore.store`. -/
def storeStore (results : List (String × StoredResult)) (correlation_id : String)
    (result : PyDict) (now : ℚ) : List (String × StoredResult) :=
  EventRegistry.alSet results correlation_id { data := result, timestamp := now }

/-- `ResultStore.get`: pop-on-read; the store is unchanged when the id is
absent. -/
def storeGet (results : List (String × StoredResult)) (correlation_id : String) :
    Option PyDict × List (String × StoredResult) :=
  let (entry, results2) := alPop results correlation_id
  (entry.map StoredResult.data, results2)

/-- Modelled from the spec: the `TaskMessage` shape consumed by
`BaseManager.handle_task` (`event`, `args`, optional `correlation_id`, §3).
The `TaskMessage` dataclass present in `src`'s `executors/message.py` has
different fields (`task_id`/`fn`/`args`/`kwargs`) and the variant the
managers import is absent from the source tree. -/
structure TaskMessage where
  event : String
  args : PyDict
  correlation_id : Option String

/-- A `TaskNode` as enqueued on the ingress queue. -/
structure TaskNode where
  id : String
  event : EventInstance
  correlation_id : String
  timeout_seconds : ℚ
  created_at : String

/-- Is `c` a hexadecimal digit? -/
def isHexDigit (c : Char) : Bool :=
  c.isDigit ∨ ('a' ≤ c ∧ c ≤ 'f') ∨ ('A' ≤ c ∧ c ≤ 'F')

/-- Do the characters match the dashed UUID layout `8-4-4-4-12`?  (Model of
the acceptance of `uuid.UUID(<str>)`.) -/
def uuidChars (cs : List Char) (groups : List Nat) : Bool :=
  match groups with
  | [] => cs.isEmpty
  | [g] => decide (cs.length = g) && cs.all isHexDigit
  | g :: gs =>
    let seg := cs.take g
    let rest := cs.drop g
    decide (seg.length = g) && seg.all isHexDigit &&
      (match rest with
       | '-' :: rest2 => uuidChars rest2 gs
       | _ => false)

/-- `uuid.UUID(s)` succeeds exactly on dashed-hex UUID strings. -/
def validUuid (s : String) : Bool :=
  uuidChars s.data [8, 4, 4, 4, 12]

/-- State shared by `BaseManager.handle_task`, the response router and the
TCP POLL branch: the client task registry, the parked-result store, and the
bounded ingress queue (`maxsize = 0` meaning unbounded, as for
`queue.Queue`). -/
structure ManagerState where
  clientRegistry : List (String × ClientTask)
  resultStore : List (String × StoredResult)
  taskQueue : List TaskNode
  queueMaxsize : Nat

/-- `BaseManager.handle_task(task_message, protocol, client_context)`.
Checks the allowlist, resolves the event class, mints or adopts the
correlation id (a supplied falsy/empty id is replaced by the fresh UUID
`freshUuid`), instantiates the event, registers the client task record,
builds the `TaskNode` (whose `correlation_id` field re-parses the id as a
UUID) and `put_nowait`s it on the bounded ingress queue, raising
`QUEUE_FULL` when the queue is at capacity.  The registry mutation precedes
the enqueue and is not undone on any later failure.  Returns the raised
error (if any) together with the state as mutated so far. -/
def handle_task (allowed_events : List String)
    (event_registry : List (String × EventClass)) (st : ManagerState)
    (task_message : TaskMessage) (protocol : String)
    (client_context : Option Nat) (freshUuid : String) (nowIso : String)
    (nowPerf : ℚ) (nodeId : String) (taskTimeout : ℚ) :
    Except String Unit × ManagerState :=
  if allowed_events ≠ [] ∧ allowed_events.contains task_message.event = false then
    (.error "EVENT_NOT_WHITELISTED", st)
  else
    match EventRegistry.alGet event_registry task_message.event with
    | none => (.error "EVENT_NOT_REGISTERED", st)
    | some event_class =>
      let correlation_id :=
        match task_message.correlation_id with
        | some s => if s = "" then freshUuid else s
        | none => freshUuid
      match event_class.ctor correlation_id (.pydict task_message.args) with
      | .error e => (.error ("INVALID_ARGS: " ++ e), st)
      | .ok event_instance =>
        let record : ClientTask :=
          { correlation_id := correlation_id
            status := "pending"
            created_at := nowIso
            start_time := nowPerf
            client_id := (dictGet task_message.args "client_id").getD (.pystr "unknown")
            event_name := task_message.event
            protocol := protocol
            client_context := client_context }
        let st1 := { st with clientRegistry := (registryRegister st.clientRegistry record).1 }
        if validUuid correlation_id = false then
          (.error "ValueError: badly formed hexadecimal UUID string", st1)
        else
          let node : TaskNode :=
            { id := nodeId, event := event_instance, correlation_id := correlation_id,
              timeout_seconds := taskTimeout, created_at := nowIso }
          if st1.queueMaxsize ≠ 0 ∧ st1.queueMaxsize ≤ st1.taskQueue.length then
            (.error "QUEUE_FULL", st1)
          else
            (.ok (), { st1 with taskQueue := st1.taskQueue ++ [node] })

/-- `BaseManager._route_response(result_data)`, as the sequence of states
after each step (initial state first, final state last).  `deliveryRaises`
says whether the protocol-specific responder
(`_route_tcp_response`/`_route_grpc_response`) raises for this record; an
unknown protocol only logs.  When delivery raises, the source parks the
result in the `except` block and only then removes the registry entry in
`finally`; when no record is found, it parks and returns without touching
the registry. -/
def route_response (st : ManagerState) (result_data : PyDict) (now : ℚ)
    (deliveryRaises : Bool) : List ManagerState :=
  let correlation_id : Option String :=
    match dictGet result_data "correlation_id" with
    | some (.pystr s) => if s = "" then none else some s
    | _ => none
  match correlation_id with
  | none => [st]
  | some cid =>
    match registryGetTask st.clientRegistry cid with
    | none =>
      [st, { st with resultStore := storeStore st.resultStore cid result_data now }]
    | some task_info =>
      let raises := deliveryRaises ∧
        (task_info.protocol = "tcp" ∨ task_info.protocol = "grpc")
      if raises then
        let stStored :=
          { st with resultStore := storeStore st.resultStore cid result_data now }
        [st, stStored,
          { stStored with clientRegistry := registryRemove stStored.clientRegistry cid }]
      else
        [st, { st with clientRegistry := registryRemove st.clientRegistry cid }]

/-- The POLL branch of `RemoteTaskManager._handle_client`: pop the result
store; if a parked result exists, reply with it (the pop removes it),
otherwise consult the client task registry and reply
`PENDING`/`NOT_FOUND` with the correlation id.  The POLL is never enqueued
as a task; the returned state differs from the input only by the pop. -/
def handle_poll (st : ManagerState) (target_task_id : String) :
    PyDict × ManagerState :=
  let (result, store2) := storeGet st.resultStore target_task_id
  match result with
  | some r => (r, { st with resultStore := store2 })
  | none =>
    let task_info := registryGetTask st.clientRegistry target_task_id
    let status := if task_info.isSome then "PENDING" else "NOT_FOUND"
    ([("correlation_id", .pystr target_task_id), ("status", .pystr status)],
      { st with resultStore := store2 })

end Manager

theorem hmacSha256_all_lt (k m : List Nat) : ∀ b ∈ hmacSha256 k m, b < 256 := by
  intro b hb
  simp only [hmacSha256, List.mem_cons, List.not_mem_nil, or_false] at hb
  rcases hb with h | h | h | h | h | h | h | h <;> subst h <;>
    exact Nat.mod_lt _ (by norm_num)

theorem b64CharVal_getD : ∀ i, i < 16 → b64CharVal ((b64Alphabet[i]?).getD 'A') = some i := by
  decide

theorem b64_roundtrip : ∀ bs : List Nat, (∀ b ∈ bs, b < 256) →
    b64decodeChars (b64encode bs).data = .ok bs := by
  intro bs
  induction bs with
  | nil => intro _; rfl
  | cons b rest ih =>
    intro hlt
    have hb : b < 256 := hlt b (List.mem_cons_self b rest)
    have hrest := ih (fun x hx => hlt x (List.mem_cons_of_mem b hx))
    have hdata : (b64encode (b :: rest)).data =
        (b64Alphabet.getD (b / 16 % 16) 'A') :: (b64Alphabet.getD (b % 16) 'A') ::
          (b64encode rest).data := by
      simp [b64encode, String.data_append]
    rw [hdata]
    have h1 : b64CharVal ((b64Alphabet[(b / 16 % 16)]?).getD 'A') = some (b / 16 % 16) :=
      b64CharVal_getD _ (Nat.mod_lt _ (by norm_num))
    have h2 : b64CharVal ((b64Alphabet[(b % 16)]?).getD 'A') = some (b % 16) :=
      b64CharVal_getD _ (Nat.mod_lt _ (by norm_num))
    have hval : b / 16 % 16 * 16 + b % 16 = b := by omega
    simp [b64decodeChars, h1, h2, hrest, bind, Except.bind, hval]

/-- C1: the claimed wire-codec round trip `decode(encode(P)) = P` fails for
every input.  `TaskMessage.serialize_object` cannot succeed at all: it feeds
the module-level `str` `SECRET_KEY` to `hmac.new` (a `TypeError`; for inputs
with non-JSON-serializable fields the preceding `json.dumps` already
raises), it never zlib-compresses although `deserialize` starts with
`zlib.decompress`, and it stores the raw digest bytes, which
`json.dumps` cannot serialize, where `deserialize` expects base64.  The
final conjunct evaluates the encoder at a concrete failing input. -/
theorem C1_wire_codec_roundtrip_broken :
    (∀ m : Message.TaskMessage, (Message.serialize_object m).isOk = false) ∧
    (∀ m : Message.TaskMessage, (Message.roundTrip m).isOk = false) ∧
    Message.serialize_object
        { task_id := .pystr "t1", fn := .pynone, args := .pylist [],
          kwargs := .pydict [] } =
      .error "TypeError: key: expected bytes or bytearray, but got str" := by
  have hser : ∀ m : Message.TaskMessage, (Message.serialize_object m).isOk = false := by
    intro m
    unfold Message.serialize_object
    cases h : json_dumps (.pydict (Message.asdict m)) with
    | error e => simp [h, bind, Except.bind, Except.isOk, Except.toBool]
    | ok s => simp [h, bind, Except.bind, hmac_new, Message.SECRET_KEY, Except.isOk, Except.toBool]
  refine ⟨hser, ?_, rfl⟩
  intro m
  unfold Message.roundTrip
  cases h : Message.serialize_object m with
  | error e => simp [h, bind, Except.bind, Except.isOk, Except.toBool]
  | ok bs =>
    have hm := hser m
    rw [h] at hm
    simp [Except.isOk, Except.toBool] at hm

/-- C2 counterexample: the verifier that `TaskMessage.deserialize` actually
runs strips only `_signature` before recomputing the HMAC — `_algorithm`
stays in the recomputation payload, so the payload differs from the
canonical JSON of the mapping with both keys removed; and on a mapping whose
signature is present and base64-decodable the verifier fails with a
`TypeError` (it hands the module's `str` secret key to `hmac.new`) instead
of completing the claimed comparison. -/
theorem C2_decode_verifier_counterexample :
    Message.verificationJson
        [("_algorithm", .pystr "sha256"), ("_signature", .pystr "AA"), ("x", .pyint 1)] =
      .ok "\x7b\"_algorithm\": \"sha256\", \"x\": 1\x7d" ∧
    json_dumps (.pydict (dictPop (dictPop
        [("_algorithm", .pystr "sha256"), ("_signature", .pystr "AA"), ("x", .pyint 1)]
        "_signature") "_algorithm")) = .ok "\x7b\"x\": 1\x7d" ∧
    ("\x7b\"_algorithm\": \"sha256\", \"x\": 1\x7d" : String) ≠ "\x7b\"x\": 1\x7d" ∧
    Message.verify_data
        [("_algorithm", .pystr "sha256"), ("_signature", .pystr "AA"), ("x", .pyint 1)] =
      .error "TypeError: key: expected bytes or bytearray, but got str" := by
  refine ⟨?_, ?_, by decide, ?_⟩
  · simp [Message.verificationJson, dictPop, json_dumps, jsonDumpsEntries, sortEntries,
      insertSorted, jsonStr, jsonEscapeChar, joinComma, bind, Except.bind, String.join]
    rfl
  · simp [dictPop, json_dumps, jsonDumpsEntries, sortEntries,
      insertSorted, jsonStr, jsonEscapeChar, joinComma, bind, Except.bind, String.join]
    rfl
  · simp [Message.verify_data, Message.verificationJson, dictHas, dictGet, dictPop,
      b64decode, b64decodeChars, b64CharVal, b64Alphabet, json_dumps, jsonDumpsEntries,
      sortEntries, insertSorted, jsonStr, jsonEscapeChar, joinComma, bind, Except.bind,
      hmac_new, Message.SECRET_KEY, throw, throwThe, MonadExcept.throw, pure, Except.pure]

/-- C2 amended: of the two verifiers in the source, `checksum.verify_data`
behaves as the claim describes structurally — it raises `INVALID_CHECKSUM`
when `_signature` is absent, strips both `_signature` and `_algorithm` from
a copy, recomputes the HMAC over the canonical JSON of the remainder with
the configured key (encoded to bytes), and compares digests — but on a
mismatch it returns `False` rather than raising; it accepts exactly the
signatures computed by that recipe.  The verifier inside
`TaskMessage.deserialize`, by contrast, merely raises `ValueError` when
`_signature` is absent and can never succeed when it is present (it strips
only `_signature` and passes the module's `str` secret key to
`hmac.new`). -/

theorem C2_verify_data_amended :
    (∀ (key : PyVal) (d : PyDict), dictHas d "_signature" = false →
      Checksum.verify_data key d = .error "RemoteExecutionError: INVALID_CHECKSUM") ∧
    (∀ (s : String) (d : PyDict) (pj : String),
      json_dumps (.pydict (dictPop (dictPop d "_signature") "_algorithm")) = .ok pj →
      dictGet d "_signature" =
        some (.pystr (b64encode (hmacSha256 (strBytes s) (strBytes pj)))) →
      Checksum.verify_data (.pystr s) d = .ok true) ∧
    (∀ (s sig : String) (d : PyDict) (r : List Nat) (pj : String),
      dictGet d "_signature" = some (.pystr sig) →
      b64decodeChars sig.data = .ok r →
      json_dumps (.pydict (dictPop (dictPop d "_signature") "_algorithm")) = .ok pj →
      r ≠ hmacSha256 (strBytes s) (strBytes pj) →
      Checksum.verify_data (.pystr s) d = .ok false) ∧
    (∀ d : PyDict, dictHas d "_signature" = false →
      Message.verify_data d = .error "ValueError: signature not found in data") ∧
    (∀ d : PyDict, dictHas d "_signature" = true →
      (Message.verify_data d).isOk = false) := by
  refine ⟨?_, ?_, ?_, ?_, ?_⟩
  · intro key d h
    simp [Checksum.verify_data, h, bind, Except.bind, throw, throwThe, MonadExcept.throw]
  · intro s d pj hj hsig
    have hhas : dictHas d "_signature" = true := by simp [dictHas, hsig]
    have hrt := b64_roundtrip _ (hmacSha256_all_lt (strBytes s) (strBytes pj))
    simp [Checksum.verify_data, hhas, hsig, b64decode, hrt, hj, bind, Except.bind,
      Checksum.get_secret_key, hmac_new, Checksum.compare_digest, pure, Except.pure]
  · intro s sig d r pj hsig hdec hj hne
    have hhas : dictHas d "_signature" = true := by simp [dictHas, hsig]
    simp [Checksum.verify_data, hhas, hsig, b64decode, hdec, hj, bind, Except.bind,
      Checksum.get_secret_key, hmac_new, Checksum.compare_digest, pure, Except.pure, hne]
  · intro d h
    simp [Message.verify_data, h, bind, Except.bind, throw, throwThe, MonadExcept.throw]
  · intro d h
    cases hv : dictGet d "_signature" with
    | none => simp [dictHas, hv] at h
    | some v =>
      cases hb : b64decode v with
      | error e =>
        simp [Message.verify_data, h, hv, hb, bind, Except.bind, Except.isOk, Except.toBool, pure, Except.pure]
      | ok r =>
        cases hj : Message.verificationJson d with
        | error e =>
          simp [Message.verify_data, h, hv, hb, hj, bind, Except.bind, Except.isOk,
            Except.toBool, pure, Except.pure]
        | ok j =>
          simp [Message.verify_data, h, hv, hb, hj, bind, Except.bind, hmac_new,
            Message.SECRET_KEY, Except.isOk, Except.toBool, pure, Except.pure]

/-- Witness for `C2_verify_data_amended` at concrete inputs: the missing
signature, a correctly signed envelope (accepted), a wrongly signed mapping
(rejected with `False`), and the `deserialize` verifier's two behaviours. -/
theorem C2_verify_data_amended_witness :
    Checksum.verify_data .pynone [] = .error "RemoteExecutionError: INVALID_CHECKSUM" ∧
    Checksum.verify_data (.pystr "sek")
        [("x", .pyint 1),
         ("_signature", .pystr (b64encode
            (hmacSha256 (strBytes "sek") (strBytes "\x7b\"x\": 1\x7d")))),
         ("_algorithm", .pystr "sha256")] = .ok true ∧
    Checksum.verify_data (.pystr "sek")
        [("y", .pyint 2), ("_signature", .pystr "AA")] = .ok false ∧
    Message.verify_data [] = .error "ValueError: signature not found in data" ∧
    (Message.verify_data [("_signature", .pystr "AA")]).isOk = false :=
  ⟨C2_verify_data_amended.1 .pynone [] (by rfl),
   C2_verify_data_amended.2.1 "sek" _ "\x7b\"x\": 1\x7d"
     (by simp [dictPop, json_dumps, jsonDumpsEntries, sortEntries, insertSorted, jsonStr,
        jsonEscapeChar, joinComma, bind, Except.bind, String.join]; rfl)
     (by rfl),
   C2_verify_data_amended.2.2.1 "sek" "AA" [("y", .pyint 2), ("_signature", .pystr "AA")]
     [0] "\x7b\"y\": 2\x7d" (by rfl) (by rfl)
     (by simp [dictPop, json_dumps, jsonDumpsEntries, sortEntries, insertSorted, jsonStr,
        jsonEscapeChar, joinComma, bind, Except.bind, String.join]; rfl)
     (by decide),
   C2_verify_data_amended.2.2.2.1 [] (by rfl),
   C2_verify_data_amended.2.2.2.2 [("_signature", .pystr "AA")] (by rfl)⟩

theorem alGet_filter_ne {α : Type} (l : List (String × α)) (k : String) :
    EventRegistry.alGet (l.filter (fun e => e.1 ≠ k)) k = none := by
  induction l with
  | nil => rfl
  | cons e rest ih =>
    by_cases h : e.1 = k
    · rw [List.filter_cons_of_neg (by simp [h])]
      exact ih
    · rw [List.filter_cons_of_pos (by simp [h])]
      unfold EventRegistry.alGet at ih ⊢
      rw [List.find?_cons_of_neg _ (by simp [h])]
      exact ih

theorem alGet_alSet_self {α : Type} (l : List (String × α)) (k : String) (v : α) :
    EventRegistry.alGet (EventRegistry.alSet l k v) k = some v := by
  unfold EventRegistry.alSet
  induction l with
  | nil => simp [EventRegistry.alGet, List.find?]
  | cons e rest ih =>
    by_cases h : e.1 = k
    · rw [List.filter_cons_of_neg (by simp [h])]
      exact ih
    · rw [List.filter_cons_of_pos (by simp [h])]
      unfold EventRegistry.alGet at ih ⊢
      rw [List.cons_append, List.find?_cons_of_neg _ (by simp [h])]
      exact ih

theorem alPop_not_found {α : Type} (l : List (String × α)) (k : String) :
    EventRegistry.alGet l k = none → Manager.alPop l k = (none, l) := by
  induction l with
  | nil => intro _; rfl
  | cons e rest ih =>
    intro h
    by_cases he : e.1 = k
    · exfalso
      unfold EventRegistry.alGet at h
      rw [List.find?_cons_of_pos _ (by simp [he])] at h
      simp at h
    · unfold EventRegistry.alGet at h
      rw [List.find?_cons_of_neg _ (by simp [he])] at h
      have h2 : EventRegistry.alGet rest k = none := by
        unfold EventRegistry.alGet
        exact h
      unfold Manager.alPop
      simp [he, ih h2]

/-- C3 counterexample: when response delivery fails, `_route_response` parks
the result in the `except` block while the registry entry is still present —
the entry is only removed afterwards in `finally`.  The trace of
(registry holds id, store holds id) pairs across the routing steps is
`[(true, false), (true, true), (false, true)]`: in the middle state both
structures hold a record for the same correlation id, refuting both the
never-both-hold invariant and the already-removed-at-store ordering. -/
theorem C3_park_ordering_counterexample :
    (Manager.route_response
        { clientRegistry := [("c",
            { correlation_id := "c", status := "pending", created_at := "t",
              start_time := 0, client_id := .pystr "cl", event_name := "echo",
              protocol := "tcp", client_context := none })],
          resultStore := [], taskQueue := [], queueMaxsize := 0 }
        [("correlation_id", .pystr "c"), ("status", .pystr "success")] 5 true).length = 3 ∧
    (Manager.route_response
        { clientRegistry := [("c",
            { correlation_id := "c", status := "pending", created_at := "t",
              start_time := 0, client_id := .pystr "cl", event_name := "echo",
              protocol := "tcp", client_context := none })],
          resultStore := [], taskQueue := [], queueMaxsize := 0 }
        [("correlation_id", .pystr "c"), ("status", .pystr "success")] 5 true).map
        (fun σ => (Manager.registryGetTask σ.clientRegistry "c" |>.isSome,
                   (EventRegistry.alGet σ.resultStore "c").isSome)) =
      [(true, false), (true, true), (false, true)] := by
  exact ⟨rfl, rfl⟩

/-- C3 amended: when response delivery raises for a tracked tcp/grpc record,
`_route_response` first parks the result (with the registry entry still
present) and then removes the registry entry in `finally`; so the two
structures overlap for the duration of that one step, and once routing
completes the registry no longer holds the correlation id while the result
store does. -/
theorem C3_route_response_amended :
    ∀ (st : Manager.ManagerState) (rd : PyDict) (now : ℚ) (cid : String)
      (info : Manager.ClientTask),
    dictGet rd "correlation_id" = some (.pystr cid) → cid ≠ "" →
    Manager.registryGetTask st.clientRegistry cid = some info →
    (info.protocol = "tcp" ∨ info.protocol = "grpc") →
    Manager.route_response st rd now true =
      [st,
       { st with resultStore := Manager.storeStore st.resultStore cid rd now },
       { st with resultStore := Manager.storeStore st.resultStore cid rd now,
                 clientRegistry := Manager.registryRemove st.clientRegistry cid }] ∧
    Manager.registryGetTask (Manager.registryRemove st.clientRegistry cid) cid = none ∧
    EventRegistry.alGet (Manager.storeStore st.resultStore cid rd now) cid =
      some { data := rd, timestamp := now } := by
  intro st rd now cid info hcid hne hreg hproto
  refine ⟨?_, alGet_filter_ne st.clientRegistry cid,
    alGet_alSet_self st.resultStore cid _⟩
  unfold Manager.route_response
  rw [hcid]
  simp only [hne, if_false, hreg]
  rw [if_pos ⟨trivial, hproto⟩]

/-- Witness for `C3_route_response_amended` at a concrete tracked record
whose tcp delivery fails. -/
theorem C3_route_response_amended_witness :
    Manager.route_response
        { clientRegistry := [("d",
            { correlation_id := "d", status := "pending", created_at := "t",
              start_time := 0, client_id := .pystr "cl", event_name := "echo",
              protocol := "tcp", client_context := some 1 })],
          resultStore := [], taskQueue := [], queueMaxsize := 0 }
        [("correlation_id", .pystr "d")] 7 true =
      [{ clientRegistry := [("d",
            { correlation_id := "d", status := "pending", created_at := "t",
              start_time := 0, client_id := .pystr "cl", event_name := "echo",
              protocol := "tcp", client_context := some 1 })],
          resultStore := [], taskQueue := [], queueMaxsize := 0 },
       { clientRegistry := [("d",
            { correlation_id := "d", status := "pending", created_at := "t",
              start_time := 0, client_id := .pystr "cl", event_name := "echo",
              protocol := "tcp", client_context := some 1 })],
          resultStore := [("d", { data := [("correlation_id", .pystr "d")],
                                  timestamp := 7 })],
          taskQueue := [], queueMaxsize := 0 },
       { clientRegistry := [],
          resultStore := [("d", { data := [("correlation_id", .pystr "d")],
                                  timestamp := 7 })],
          taskQueue := [], queueMaxsize := 0 }] :=
  (C3_route_response_amended
    { clientRegistry := [("d",
        { correlation_id := "d", status := "pending", created_at := "t",
          start_time := 0, client_id := .pystr "cl", event_name := "echo",
          protocol := "tcp", client_context := some 1 })],
      resultStore := [], taskQueue := [], queueMaxsize := 0 }
    [("correlation_id", .pystr "d")] 7 "d"
    { correlation_id := "d", status := "pending", created_at := "t",
      start_time := 0, client_id := .pystr "cl", event_name := "echo",
      protocol := "tcp", client_context := some 1 }
    (by rfl) (by decide) (by rfl) (Or.inl rfl)).1

/-- C4: `Registry.register`'s own docstring promises a `RuntimeError` for a
conflicting event (different module, same name), and the claim says a
different class under an already-registered name is rejected with the
existing mapping left intact.  The code does neither: the conflict check
only consults `all_classes[klass.__module__]`, so a class from another
module with the same name passes the check silently and overwrites the
name-registry binding.  Re-registering the identical class does warn and
leaves the contents unchanged (first conjunct). -/
theorem C4_name_collision_overwrites :
    (EventRegistry.register
        (EventRegistry.register .init ⟨"m1", "X", 0⟩ none).2 ⟨"m1", "X", 0⟩ none) =
      (.warned, (EventRegistry.register .init ⟨"m1", "X", 0⟩ none).2) ∧
    (EventRegistry.register
        (EventRegistry.register .init ⟨"m1", "X", 0⟩ none).2 ⟨"m2", "X", 1⟩ none).1 =
      .registered ∧
    EventRegistry.get_by_name
        (EventRegistry.register .init ⟨"m1", "X", 0⟩ none).2 "X" =
      some ⟨"m1", "X", 0⟩ ∧
    EventRegistry.get_by_name
        (EventRegistry.register
          (EventRegistry.register .init ⟨"m1", "X", 0⟩ none).2 ⟨"m2", "X", 1⟩ none).2 "X" =
      some ⟨"m2", "X", 1⟩ :=
  ⟨rfl, rfl, rfl, rfl⟩

/-- The first component of `should_scale_up` as a conjunction of the four
branch conditions in the source's own orientation. -/
theorem should_scale_up_fst_eq (st : Scaling.EngineState) :
    (Scaling.should_scale_up st).1 =
      (decide (st.target_workers < st.max_workers) &&
       decide (st.cpu_usage_cores <
         st.config.max_cpu_quota * st.config.cpu_threshold_scale_up) &&
       decide (st.memory_usage_gb <
         st.config.max_memory_quota * st.config.memory_threshold) &&
       decide ((st.target_workers : ℚ) * st.config.scale_up_threshold ≤
         (st.task_queue_length : ℚ))) := by
  by_cases h1 : st.max_workers ≤ st.target_workers <;>
  by_cases h2 : st.cpu_usage_cores <
      st.config.max_cpu_quota * st.config.cpu_threshold_scale_up <;>
  by_cases h3 : st.memory_usage_gb <
      st.config.max_memory_quota * st.config.memory_threshold <;>
  by_cases h4 : ((st.target_workers : ℚ) * st.config.scale_up_threshold ≤
      (st.task_queue_length : ℚ)) <;>
  simp [Scaling.should_scale_up, Scaling.check_resource_constraints, h1, h2, h3, h4]
  omega

/-- C5: the scale-up predicate returns `True` exactly when the target is
below `W_max`, measured CPU cores are below
`cpu_threshold_scale_up × max_cpu_quota`, measured memory is below
`memory_threshold × max_memory_quota`, and the queue length is at least
`scale_up_threshold × target_workers`; by its type it returns a
`(decision, reason)` pair in every case. -/
theorem C5_should_scale_up_iff (st : Scaling.EngineState) :
    (Scaling.should_scale_up st).1 = true ↔
      (st.target_workers < st.max_workers ∧
       st.cpu_usage_cores < st.config.cpu_threshold_scale_up * st.config.max_cpu_quota ∧
       st.memory_usage_gb < st.config.memory_threshold * st.config.max_memory_quota ∧
       (st.task_queue_length : ℚ) ≥
         st.config.scale_up_threshold * (st.target_workers : ℚ)) := by
  rw [should_scale_up_fst_eq]
  simp only [Bool.and_eq_true, decide_eq_true_eq, ge_iff_le, and_assoc]
  constructor
  · rintro ⟨a, b, c, d⟩
    exact ⟨a, by linarith, by linarith, by linarith⟩
  · rintro ⟨a, b, c, d⟩
    exact ⟨a, by linarith, by linarith, by linarith⟩

/-- C6: the scale-down predicate can only return `True` when at least
`scale_down_timeout` seconds have elapsed since `last_scale_action_time`
(so it returns `False` whenever the elapsed time is smaller), and every
accepted target-worker change (`set_target_worker_count` returning `True`)
stamps `last_scale_action_time` with the current time. -/
theorem C6_scale_down_cooldown :
    (∀ (st : Scaling.EngineState) (now : ℚ),
      now - st.last_scale_action_time < st.config.scale_down_timeout →
      (Scaling.should_scale_down st now).1 = false) ∧
    (∀ (st : Scaling.EngineState) (now : ℚ) (count : ℤ),
      (Scaling.set_target_worker_count st now count).1 = true →
      (Scaling.set_target_worker_count st now count).2.last_scale_action_time = now) := by
  constructor
  · intro st now h
    unfold Scaling.should_scale_down Scaling.check_resource_constraints
    split_ifs with h1 h2
    · rfl
    · rfl
    · dsimp only
      split_ifs with h3 h4
      · exfalso; linarith
      · rfl
      · rfl
  · intro st now count h
    by_cases hc : (max st.config.min_workers (min count st.max_workers)) ≠ st.target_workers
    · simp [Scaling.set_target_worker_count, hc]
    · simp [Scaling.set_target_worker_count, hc] at h

/-- Witness for `C6_scale_down_cooldown`: with the source's default
configuration, an idle engine polled 5 s after the last action (timeout
10 s) does not scale down, and an accepted change from 2 to 3 workers at
time 5 stamps the last-action time with 5. -/
theorem C6_scale_down_cooldown_witness :
    (Scaling.should_scale_down
        { config := { max_cpu_quota := 4, max_memory_quota := 8, cpu_per_worker := 1,
                      memory_per_worker := 1/2, parallelism_multiplier := 2,
                      scale_up_threshold := 7/10, scale_down_timeout := 10,
                      min_workers := 1, monitoring_interval := 1,
                      cpu_threshold_scale_down := 3/10, cpu_threshold_scale_up := 17/20,
                      memory_threshold := 9/10, aggressive_scaling := true },
          max_workers := 4, target_workers := 2, task_queue_length := 0,
          last_scale_action_time := 0, last_scale_action := none,
          cpu_usage_cores := 1/2, memory_usage_gb := 1 } 5).1 = false ∧
    (Scaling.set_target_worker_count
        { config := { max_cpu_quota := 4, max_memory_quota := 8, cpu_per_worker := 1,
                      memory_per_worker := 1/2, parallelism_multiplier := 2,
                      scale_up_threshold := 7/10, scale_down_timeout := 10,
                      min_workers := 1, monitoring_interval := 1,
                      cpu_threshold_scale_down := 3/10, cpu_threshold_scale_up := 17/20,
                      memory_threshold := 9/10, aggressive_scaling := true },
          max_workers := 4, target_workers := 2, task_queue_length := 0,
          last_scale_action_time := 0, last_scale_action := none,
          cpu_usage_cores := 1/2, memory_usage_gb := 1 } 5 3).2.last_scale_action_time = 5 :=
  ⟨C6_scale_down_cooldown.1 _ 5 (by norm_num),
   C6_scale_down_cooldown.2 _ 5 3 (by decide)⟩

/-- C7 counterexample: a `QueuedFuture` cancelled before the submission loop
dequeues it is indeed marked cancelled (cancel falls back to the base
`Future.cancel` and reports success), but the submission loop performs no
cancellation check: `_submission_loop` submits the dequeued future's
function to the live executor regardless, so the cancelled future's function
ends up in the executor's submitted list — refuting "its function is never
submitted to the live executor". -/
theorem C7_cancelled_future_still_submitted_counterexample :
    (Pool.QueuedFuture.cancel (Pool.QueuedFuture.mk0 7)
        { realFutures := [], submittedFns := [] }).1.st = .cancelled ∧
    (Pool.QueuedFuture.cancel (Pool.QueuedFuture.mk0 7)
        { realFutures := [], submittedFns := [] }).2.2 = true ∧
    (Pool.submissionStep
        (Pool.QueuedFuture.cancel (Pool.QueuedFuture.mk0 7)
          { realFutures := [], submittedFns := [] }).2.1
        (Pool.QueuedFuture.cancel (Pool.QueuedFuture.mk0 7)
          { realFutures := [], submittedFns := [] }).1).2.submittedFns = [7] :=
  ⟨rfl, rfl, rfl⟩

/-- C7 amended: cancelling a proxy future with no real future marks it
cancelled, reports `True` and leaves the pool untouched; cancelling one
whose real future exists forwards the cancellation to that real future
(cancelling it when it is still pending) and leaves the proxy unchanged;
but the submission loop submits every dequeued future's function to the
live executor, including futures already marked cancelled. -/
theorem C7_cancel_amended :
    (∀ (qf : Pool.QueuedFuture) (pool : Pool.PoolState),
      qf.realFuture = none → qf.st = .pending →
      (Pool.QueuedFuture.cancel qf pool).1.st = .cancelled ∧
      (Pool.QueuedFuture.cancel qf pool).2.2 = true ∧
      (Pool.QueuedFuture.cancel qf pool).2.1 = pool) ∧
    (∀ (qf : Pool.QueuedFuture) (pool : Pool.PoolState) (i : Nat),
      qf.realFuture = some i →
      pool.realFutures.getD i .pending = .pending →
      (Pool.QueuedFuture.cancel qf pool).1 = qf ∧
      (Pool.QueuedFuture.cancel qf pool).2.1.realFutures =
        pool.realFutures.set i .cancelled ∧
      (Pool.QueuedFuture.cancel qf pool).2.2 = true) ∧
    (∀ (pool : Pool.PoolState) (qf : Pool.QueuedFuture),
      qf.st = .cancelled →
      (Pool.submissionStep pool qf).2.submittedFns = pool.submittedFns ++ [qf.fn] ∧
      (Pool.submissionStep pool qf).1.realFuture = some pool.realFutures.length) := by
  refine ⟨?_, ?_, ?_⟩
  · intro qf pool hrf hst
    simp [Pool.QueuedFuture.cancel, hrf, hst, Pool.baseCancel]
  · intro qf pool i hrf hpending
    simp only [List.getD, List.get?_eq_getElem?] at hpending
    simp [Pool.QueuedFuture.cancel, hrf, hpending, Pool.baseCancel]
  · intro pool qf _
    simp [Pool.submissionStep]

/-- Witness for `C7_cancel_amended` at concrete futures: a queued pending
future, a handed-off future whose real future is pending, and a cancelled
queued future that the loop still submits. -/
theorem C7_cancel_amended_witness :
    (Pool.QueuedFuture.cancel { fn := 3, st := .pending, realFuture := none }
        { realFutures := [], submittedFns := [] }).1.st = .cancelled ∧
    (Pool.QueuedFuture.cancel { fn := 4, st := .pending, realFuture := some 0 }
        { realFutures := [.pending], submittedFns := [4] }).2.1.realFutures =
      [.cancelled] ∧
    (Pool.submissionStep { realFutures := [], submittedFns := [] }
        { fn := 3, st := .cancelled, realFuture := none }).2.submittedFns = [3] :=
  ⟨(C7_cancel_amended.1 { fn := 3, st := .pending, realFuture := none }
      { realFutures := [], submittedFns := [] } rfl rfl).1,
   ((C7_cancel_amended.2.1 { fn := 4, st := .pending, realFuture := some 0 }
      { realFutures := [.pending], submittedFns := [4] } 0 rfl rfl).2).1,
   (C7_cancel_amended.2.2 { realFutures := [], submittedFns := [] }
      { fn := 3, st := .cancelled, realFuture := none } rfl).1⟩

/-- C8: when invoking the event instance raises, `execute_task_wrapper`
catches the exception (its embedding is a total function: nothing
propagates) and returns the error payload built by `create_error_response`:
status `error`, the execution-failure code, the exception message, and the
task's correlation id. -/
theorem C8_execute_task_wrapper_error_shape :
    ∀ (inst : Manager.EventInstance) (cid now e : String),
      inst.invoke = .error e →
      Manager.execute_task_wrapper inst cid now =
        [("status", .pystr "error"), ("code", .pystr "EXECUTION_FAILED"),
         ("message", .pystr e), ("correlation_id", .pystr cid)] := by
  intro inst cid now e h
  unfold Manager.execute_task_wrapper
  rw [h]
  rfl

/-- Witness for `C8_execute_task_wrapper_error_shape` at a concrete raising
event. -/
theorem C8_execute_task_wrapper_error_shape_witness :
    Manager.execute_task_wrapper { invoke := .error "boom" } "cid1" "2026-01-01" =
      [("status", .pystr "error"), ("code", .pystr "EXECUTION_FAILED"),
       ("message", .pystr "boom"), ("correlation_id", .pystr "cid1")] :=
  C8_execute_task_wrapper_error_shape { invoke := .error "boom" } "cid1" "2026-01-01"
    "boom" rfl

/-- C9: a POLL for a correlation id held in neither the result store nor the
client task registry replies `NOT_FOUND` with the id and returns the state
unchanged — the store pop finds nothing (and leaves the store as it was),
the registry is only read, and the task queue is untouched (POLL is never
enqueued). -/
theorem C9_poll_unknown_id_no_side_effects :
    ∀ (st : Manager.ManagerState) (id : String),
      EventRegistry.alGet st.resultStore id = none →
      Manager.registryGetTask st.clientRegistry id = none →
      Manager.handle_poll st id =
        ([("correlation_id", .pystr id), ("status", .pystr "NOT_FOUND")], st) := by
  intro st id hstore hreg
  unfold Manager.handle_poll Manager.storeGet
  rw [alPop_not_found st.resultStore id hstore]
  simp [hreg]

/-- Witness for `C9_poll_unknown_id_no_side_effects` on a state holding
unrelated records. -/
theorem C9_poll_unknown_id_no_side_effects_witness :
    Manager.handle_poll
        { clientRegistry := [("other",
            { correlation_id := "other", status := "pending", created_at := "t",
              start_time := 0, client_id := .pystr "cl", event_name := "echo",
              protocol := "tcp", client_context := none })],
          resultStore := [("kept", { data := [], timestamp := 1 })],
          taskQueue := [], queueMaxsize := 5 } "unknown" =
      ([("correlation_id", .pystr "unknown"), ("status", .pystr "NOT_FOUND")],
       { clientRegistry := [("other",
            { correlation_id := "other", status := "pending", created_at := "t",
              start_time := 0, client_id := .pystr "cl", event_name := "echo",
              protocol := "tcp", client_context := none })],
          resultStore := [("kept", { data := [], timestamp := 1 })],
          taskQueue := [], queueMaxsize := 5 }) :=
  C9_poll_unknown_id_no_side_effects _ "unknown" (by rfl) (by rfl)

/-- C10: when `handle_task` fails with `QUEUE_FULL` because the bounded
ingress queue is at capacity, the `ClientTaskRecord` that the same call
registered just before the enqueue is still in the client task registry (the
source performs `registry.register` before `put_nowait` and has no rollback
on the `queue.Full` path), and the task queue itself is unchanged. -/
theorem C10_queue_full_keeps_registry_record :
    ∀ (allowed : List String) (eventReg : List (String × Manager.EventClass))
      (st : Manager.ManagerState) (msg : Manager.TaskMessage) (protocol : String)
      (ctx : Option Nat) (freshUuid nowIso : String) (nowPerf : ℚ)
      (nodeId : String) (taskTimeout : ℚ) (ec : Manager.EventClass)
      (inst : Manager.EventInstance),
      (allowed = [] ∨ allowed.contains msg.event = true) →
      EventRegistry.alGet eventReg msg.event = some ec →
      msg.correlation_id = none →
      ec.ctor freshUuid (.pydict msg.args) = .ok inst →
      Manager.validUuid freshUuid = true →
      st.queueMaxsize ≠ 0 →
      st.queueMaxsize ≤ st.taskQueue.length →
      (Manager.handle_task allowed eventReg st msg protocol ctx freshUuid nowIso
          nowPerf nodeId taskTimeout).1 = .error "QUEUE_FULL" ∧
      Manager.registryGetTask
          (Manager.handle_task allowed eventReg st msg protocol ctx freshUuid nowIso
            nowPerf nodeId taskTimeout).2.clientRegistry freshUuid =
        some { correlation_id := freshUuid, status := "pending", created_at := nowIso,
               start_time := nowPerf,
               client_id := (dictGet msg.args "client_id").getD (.pystr "unknown"),
               event_name := msg.event, protocol := protocol,
               client_context := ctx } ∧
      (Manager.handle_task allowed eventReg st msg protocol ctx freshUuid nowIso
          nowPerf nodeId taskTimeout).2.taskQueue = st.taskQueue := by
  intro allowed eventReg st msg protocol ctx freshUuid nowIso nowPerf nodeId
    taskTimeout ec inst hallow hec hcid hctor huuid hmax hfull
  have hwl : ¬(allowed ≠ [] ∧ allowed.contains msg.event = false) := by
    rcases hallow with h | h
    · simp [h]
    · rintro ⟨h1, h2⟩
      rw [h] at h2
      simp at h2
  unfold Manager.handle_task
  rw [if_neg hwl, hec, hcid]
  simp only [hctor, huuid]
  rw [if_neg (by simp)]
  rw [if_pos ⟨hmax, hfull⟩]
  refine ⟨rfl, ?_, rfl⟩
  exact alGet_alSet_self st.clientRegistry freshUuid _

/-- Witness for `C10_queue_full_keeps_registry_record`: a registered `echo`
event submitted to a manager whose single-slot ingress queue is already
occupied. -/
theorem C10_queue_full_keeps_registry_record_witness :
    (Manager.handle_task [] [("echo",
        { ctor := fun _ _ => .ok { invoke := .ok { error := false, content := .pynone } } })]
        { clientRegistry := [], resultStore := [],
          taskQueue := [({ id := "n0",
                             event := { invoke := .ok { error := false, content := .pynone } },
                             correlation_id := "c0", timeout_seconds := 300,
                             created_at := "t" } : Manager.TaskNode)],
          queueMaxsize := 1 }
        { event := "echo", args := [], correlation_id := none } "tcp" none
        "123e4567-e89b-12d3-a456-426614174000" "2026-01-01" 0 "n1" 300).1 =
      .error "QUEUE_FULL" ∧
    Manager.registryGetTask
        (Manager.handle_task [] [("echo",
          { ctor := fun _ _ => .ok { invoke := .ok { error := false, content := .pynone } } })]
          { clientRegistry := [], resultStore := [],
            taskQueue := [({ id := "n0",
                               event := { invoke := .ok { error := false, content := .pynone } },
                               correlation_id := "c0", timeout_seconds := 300,
                               created_at := "t" } : Manager.TaskNode)],
            queueMaxsize := 1 }
          { event := "echo", args := [], correlation_id := none } "tcp" none
          "123e4567-e89b-12d3-a456-426614174000" "2026-01-01" 0 "n1" 300).2.clientRegistry
        "123e4567-e89b-12d3-a456-426614174000" =
      some { correlation_id := "123e4567-e89b-12d3-a456-426614174000",
             status := "pending", created_at := "2026-01-01", start_time := 0,
             client_id := .pystr "unknown", event_name := "echo", protocol := "tcp",
             client_context := none } :=
  ⟨(C10_queue_full_keeps_registry_record [] _ _ _ "tcp" none
      "123e4567-e89b-12d3-a456-426614174000" "2026-01-01" 0 "n1" 300 _ _
      (Or.inl rfl) (by rfl) rfl (by rfl) (by rfl) (by decide) (by decide)).1,
   (C10_queue_full_keeps_registry_record [] _ _ _ "tcp" none
      "123e4567-e89b-12d3-a456-426614174000" "2026-01-01" 0 "n1" 300 _ _
      (Or.inl rfl) (by rfl) rfl (by rfl) (by rfl) (by decide) (by decide)).2.1⟩

/-- Witness for `C5_should_scale_up_iff`: a state satisfying all four
conditions (target 2 of max 4, half a core of the 3.4-core headroom, 1 GB of
the 7.2 GB headroom, queue 10 against threshold 1.4) scales up. -/
theorem C5_should_scale_up_iff_witness :
    (Scaling.should_scale_up
        { config := { max_cpu_quota := 4, max_memory_quota := 8, cpu_per_worker := 1,
                      memory_per_worker := 1/2, parallelism_multiplier := 2,
                      scale_up_threshold := 7/10, scale_down_timeout := 10,
                      min_workers := 1, monitoring_interval := 1,
                      cpu_threshold_scale_down := 3/10, cpu_threshold_scale_up := 17/20,
                      memory_threshold := 9/10, aggressive_scaling := true },
          max_workers := 4, target_workers := 2, task_queue_length := 10,
          last_scale_action_time := 0, last_scale_action := none,
          cpu_usage_cores := 1/2, memory_usage_gb := 1 }).1 = true :=
  (C5_should_scale_up_iff _).mpr
    ⟨by decide, by norm_num, by norm_num, by norm_num⟩
